import Mathlib

/-!
Shallow embedding of the GovFinViz data-aggregation core (`data_processor.py`)
and the chatbot conversation-history handling (`chatbot.py`).

Modelling conventions:
- pandas numeric cells are `Option ℚ`: `none` is a missing value (NaN after
  `to_numeric(…, errors=coerce)`), `some v` a parsed number.
- a year-columnar DataFrame is a list of rows plus the list of year columns
  actually present (`cols`); a cell access first checks column membership,
  as the Python code does with `year_col in …columns`.
- Python exceptions and the `try/except` blocks that convert them to
  error dictionaries are modelled with `Except String`.
- `sorted(…, key=…, reverse=True)` (a stable sort) is `List.mergeSort`
  with the reversed comparison, which is also stable.
-/

namespace GovFinViz

/-- One row of `year_wise_revenue.csv` after `_clean_data`: a revenue-source
name and, for each year column, an optional numeric amount. -/
structure RevenueRow where
  source : String
  cell : Nat → Option ℚ

/-- The revenue DataFrame: the year columns present, and the rows in table
order. -/
structure RevenueTable where
  cols : List Nat
  rows : List RevenueRow

/-- One row of `year_wise_expenditures.csv` after `_clean_data`. -/
structure ExpRow where
  name : String
  rank : ℚ
  total10 : String
  cell : Nat → Option ℚ

/-- The expenditure DataFrame. -/
structure ExpTable where
  cols : List Nat
  rows : List ExpRow

/-- One row of `budget_summary.csv`. -/
structure BudgetRecord where
  year : Nat
  total_receipts : ℚ
  total_expenditure : ℚ
  gdp_nominal_in_crores : ℚ
  fiscal_deficit_in_crores : ℚ
  fiscal_deficit_as_gdp_pct : ℚ
deriving DecidableEq, Repr

/-- One row of `expenditures_detailed.csv`. -/
structure SchemeRow where
  year : Nat
  ministry_name : String
  grant_or_scheme_name : String
  amount_in_crores : ℚ
  expenditure_type : String
  estimate_type : String
deriving DecidableEq, Repr

/-- One row of `speeches.csv`. -/
structure SpeechRow where
  year : Nat
  ai_summary : String
deriving DecidableEq, Repr

/-- The in-memory tables of a `DataProcessor` after `load_data`. -/
structure DataStore where
  revenue_data : RevenueTable
  expenditure_data : ExpTable
  budget_summary : List BudgetRecord
  detailed_expenditures : List SchemeRow
  speeches : List SpeechRow

/-- The dictionary returned by `_calculate_fiscal_health`. -/
structure FiscalHealth where
  budget_balance : ℚ
  expenditure_to_gdp : ℚ
  revenue_to_gdp : ℚ
  fiscal_deficit_ratio : ℚ
  deficit_trend : String
deriving DecidableEq, Repr

/-- `_get_deficit_trend(current_year)`: looks up the deficit ratio of
`current_year` (`.iloc[0]` raises when the year is absent, caught by the
bare `except` which returns "Unknown"), then compares with `current_year-1`
when a record for it exists. -/
def deficit_compare (current_deficit previous_deficit : ℚ) : String :=
  if current_deficit < previous_deficit then "Improving"
  else if previous_deficit < current_deficit then "Deteriorating"
  else "Stable"

def get_deficit_trend (budget_summary : List BudgetRecord) (current_year : Nat) : String :=
  match budget_summary.find? (fun r => r.year == current_year) with
  | none => "Unknown"
  | some r =>
    match budget_summary.find? (fun p => p.year == current_year - 1) with
    | none => "No trend data"
    | some p => deficit_compare r.fiscal_deficit_as_gdp_pct p.fiscal_deficit_as_gdp_pct

/-- `_calculate_fiscal_health(budget_data)`: ratios guarded by `if gdp > 0
else 0`; the trend comes from `_get_deficit_trend(budget_data[year])`. -/
def calculate_fiscal_health (budget_summary : List BudgetRecord) (b : BudgetRecord) :
    FiscalHealth :=
  ⟨b.total_receipts - b.total_expenditure,
   if 0 < b.gdp_nominal_in_crores then b.total_expenditure / b.gdp_nominal_in_crores * 100 else 0,
   if 0 < b.gdp_nominal_in_crores then b.total_receipts / b.gdp_nominal_in_crores * 100 else 0,
   b.fiscal_deficit_as_gdp_pct,
   get_deficit_trend budget_summary b.year⟩

/-- An entry of the `revenue_breakdown` list built by `_get_revenue_for_year`. -/
structure RevEntry where
  source : String
  amount : ℚ
  percentage : ℚ
deriving DecidableEq, Repr

/-- The first loop of `_get_revenue_for_year`: every row with a defined,
strictly positive amount for the year, percentage initialized to 0. -/
def revenue_list (t : RevenueTable) (year : Nat) : List RevEntry :=
  t.rows.filterMap (fun r =>
    match r.cell year with
    | some v => if 0 < v then some (⟨r.source, v, 0⟩ : RevEntry) else none
    | none => none)

/-- `_get_revenue_for_year(year)`: empty when the year column is absent;
otherwise every row with a defined, strictly positive amount, annotated with
its percentage share of the total (0 when the total is not positive), sorted
descending by amount (stable). -/
def get_revenue_for_year (t : RevenueTable) (year : Nat) : List RevEntry :=
  if year ∈ t.cols then
    let total_revenue := ((revenue_list t year).map (·.amount)).sum
    let withPct := (revenue_list t year).map (fun e =>
      (⟨e.source, e.amount,
        if 0 < total_revenue then e.amount / total_revenue * 100 else 0⟩ : RevEntry))
    withPct.mergeSort (fun a b => b.amount ≤ a.amount)
  else []

/-- An entry of the `top_ministries` list. -/
structure MinistryEntry where
  ministry : String
  amount : ℚ
  rank : ℚ
deriving DecidableEq, Repr

/-- `_get_top_ministries_for_year(year, top_n=10)` (always called with the
default `top_n`). -/
def get_top_ministries_for_year (t : ExpTable) (year : Nat) : List MinistryEntry :=
  if year ∈ t.cols then
    ((t.rows.filterMap (fun r =>
      match r.cell year with
      | some v => if 0 < v then some (⟨r.name, v, r.rank⟩ : MinistryEntry) else none
      | none => none)).mergeSort (fun a b => b.amount ≤ a.amount)).take 10
  else []

/-- An entry of the `key_schemes` list. -/
structure SchemeEntry where
  ministry : String
  scheme : String
  amount : ℚ
  type : String
  estimate_type : String
deriving DecidableEq, Repr

/-- `_get_key_schemes_for_year(year)`. -/
def get_key_schemes_for_year (d : List SchemeRow) (year : Nat) : List SchemeEntry :=
  ((d.filter (fun r => r.year == year)).map (fun r =>
    (⟨r.ministry_name, r.grant_or_scheme_name, r.amount_in_crores,
      r.expenditure_type, r.estimate_type⟩ : SchemeEntry))).mergeSort
    (fun a b => b.amount ≤ a.amount)

/-- The dictionary returned by `get_year_overview` on success. -/
structure Overview where
  budget_summary : BudgetRecord
  revenue_breakdown : List RevEntry
  top_ministries : List MinistryEntry
  key_schemes : List SchemeEntry
  speech_summary : String
  fiscal_health : FiscalHealth
deriving DecidableEq, Repr

/-- `get_year_overview(year)`: the year is looked up in the budget summary
first; when absent the function returns the error dictionary and nothing
else (the `Except.error` constructor carries only the message, so no
partial data can accompany it). -/
def get_year_overview (s : DataStore) (year : Nat) : Except String Overview :=
  match s.budget_summary.find? (fun r => r.year == year) with
  | none => .error ("No data available for year " ++ toString year)
  | some b =>
    .ok ⟨b,
      get_revenue_for_year s.revenue_data year,
      get_top_ministries_for_year s.expenditure_data year,
      get_key_schemes_for_year s.detailed_expenditures year,
      (match s.speeches.find? (fun sp => sp.year == year) with
       | some sp => sp.ai_summary
       | none => "No speech data available"),
      calculate_fiscal_health s.budget_summary b⟩

/-- Case-insensitive literal substring containment, checked on the lowered
char lists. This is the value of the element test of pandas
`Series.str.contains(pat, case=False, na=False)` on patterns free of regex
metacharacters; the pandas default `regex=True` interprets the pattern as a
regular expression, so on patterns containing metacharacters the library
primitive and this literal containment diverge (see `regex_contains_paren`
and the counterexample below). -/
def contains_sub (needle : List Char) : List Char → Bool
  | [] => needle.isEmpty
  | c :: t => needle.isPrefixOf (c :: t) || contains_sub needle t

def substr_ci (pat hay : String) : Bool :=
  contains_sub (pat.toList.map Char.toLower) (hay.toList.map Char.toLower)

/-- Modelled from the documented semantics of the external regex engine
behind pandas `str.contains(pat, case=False)` with its default `regex=True`,
for the fragment of patterns built from literal characters and balanced
grouping parentheses (no quantifiers, alternation, classes, escapes or
anchors). In that fragment the parentheses are group operators that do not
change the matched language, so the case-insensitive search succeeds exactly
when the pattern with its parentheses removed occurs case-insensitively in
the subject string (whose own characters stay literal). -/
def regex_contains_paren (pat hay : String) : Bool :=
  contains_sub
    ((pat.toList.filter (fun c => !(c == '(') && !(c == ')'))).map Char.toLower)
    (hay.toList.map Char.toLower)

/-- The dictionary returned by `get_ministry_details` on success. The
filter guarantees `current_allocation` is `some`, mirroring the `notna`
condition; the raw cell is kept. -/
structure MinistryDetails where
  ministry_name : String
  current_allocation : Option ℚ
  rank : ℚ
  historical_trend : List (Nat × ℚ)
  major_schemes : List (String × ℚ × String)
  total_10_year : String
deriving DecidableEq, Repr

/-- `get_ministry_details(year, ministry_name)`: filters the expenditure
table to rows whose name matches the pattern under
`str.contains(ministry_name, case=False, na=False)` AND whose amount for
`year` is defined, errors when the filter is empty, else takes `iloc[0]` —
the first such row in table order. The `str.contains` element test is an
external library primitive (its default `regex=True` interprets the pattern
as a regular expression), so it is passed as the parameter `m`, like the
completion service elsewhere; `substr_ci` is its value on metacharacter-free
patterns and `regex_contains_paren` its value on literal-plus-parentheses
patterns. A missing year column makes the column access raise, caught by
the outer `except`. -/
def get_ministry_details (m : String → String → Bool) (s : DataStore) (year : Nat)
    (pattern : String) : Except String MinistryDetails :=
  if year ∈ s.expenditure_data.cols then
    match s.expenditure_data.rows.find?
        (fun r => m pattern r.name && (r.cell year).isSome) with
    | none => .error ("No data found for " ++ pattern ++ " in " ++ toString year)
    | some r =>
      .ok ⟨r.name, r.cell year, r.rank,
        (List.range' 2016 10).filterMap (fun y =>
          if y ∈ s.expenditure_data.cols then (r.cell y).map (fun v => (y, v)) else none),
        (s.detailed_expenditures.filter
          (fun d => d.year == year && m pattern d.ministry_name)).map
          (fun d => (d.grant_or_scheme_name, d.amount_in_crores, d.expenditure_type)),
        r.total10⟩
  else .error "Error processing ministry data: missing year column"

/-- The dictionary built by `get_comparison_data`; `expenditure_comparison`
is initialized empty and never filled by the code. -/
structure ComparisonResult where
  years : List Nat
  budget_summary : List BudgetRecord
  revenue_comparison : List (String × List (Nat × ℚ))
  expenditure_comparison : List (String × List (Nat × ℚ))
  ministry_trends : List (String × List (Nat × ℚ))
deriving DecidableEq, Repr

/-- The per-source or per-ministry series: for each requested year whose
column exists and whose cell is defined, the (year, amount) pair; absent
years are omitted, never zero-filled. -/
def series_for (cols : List Nat) (cell : Nat → Option ℚ) (years : List Nat) :
    List (Nat × ℚ) :=
  years.filterMap (fun y => if y ∈ cols then (cell y).map (fun v => (y, v)) else none)

/-- `get_comparison_data(years)`. Nothing in the body can raise in this
model, so the `except` branch is unreachable and the result is always `ok`;
note the code has no check that any requested year exists. -/
def get_comparison_data (s : DataStore) (years : List Nat) :
    Except String ComparisonResult :=
  .ok ⟨years,
    years.filterMap (fun y => s.budget_summary.find? (fun r => r.year == y)),
    s.revenue_data.rows.filterMap (fun row0 =>
      (s.revenue_data.rows.find? (fun r => r.source == row0.source)).bind (fun r =>
        let source_data := series_for s.revenue_data.cols r.cell years
        if source_data.isEmpty then none else some (r.source, source_data))),
    [],
    (s.expenditure_data.rows.take 10).filterMap (fun m0 =>
      (s.expenditure_data.rows.find? (fun r => r.name == m0.name)).bind (fun r =>
        let ministry_data := series_for s.expenditure_data.cols r.cell years
        if ministry_data.isEmpty then none else some (r.name, ministry_data)))⟩

/-- `get_insights_data()`: the whole five-entry dictionary is built inside a
single `try`; Python evaluates the five sub-computations in order and the
first exception aborts the dict construction, landing in the one `except`
that returns a single error dictionary. The sub-computations are passed as
`Except` values so that a raising sub-computation can be represented. -/
def get_insights_data {A B C D E : Type}
    (revenue_trends : Except String A) (expenditure_patterns : Except String B)
    (fiscal_analysis : Except String C) (ministry_performance : Except String D)
    (key_findings : Except String E) : Except String (A × B × C × D × E) :=
  match revenue_trends with
  | .error e => .error ("Error generating insights: " ++ e)
  | .ok a =>
    match expenditure_patterns with
    | .error e => .error ("Error generating insights: " ++ e)
    | .ok b =>
      match fiscal_analysis with
      | .error e => .error ("Error generating insights: " ++ e)
      | .ok c =>
        match ministry_performance with
        | .error e => .error ("Error generating insights: " ++ e)
        | .ok d =>
          match key_findings with
          | .error e => .error ("Error generating insights: " ++ e)
          | .ok k => .ok (a, b, c, d, k)

structure GrowthEntry where
  year : Nat
  growth_rate : ℚ
deriving DecidableEq, Repr

structure SourceTrend where
  growth_rates : List GrowthEntry
  avg_growth : ℚ
deriving DecidableEq, Repr

/-- The hardcoded tracked sources of `_analyze_revenue_trends`. -/
def major_sources : List String :=
  ["Corporation Tax", "Income Tax", "Goods and Services Tax (GST)"]

/-- The inner loop of `_analyze_revenue_trends`: for each year 2017..2025,
when both year columns exist, both cells are defined (`notna`) and the
PREVIOUS value is strictly positive, the growth rate
`(cur - prev) / prev * 100`. Note the code does not test the current value
for positivity. -/
def growth_rates_for (t : RevenueTable) (r : RevenueRow) : List GrowthEntry :=
  (List.range' 2017 9).filterMap (fun year =>
    if year ∈ t.cols ∧ year - 1 ∈ t.cols then
      match r.cell year, r.cell (year - 1) with
      | some current_val, some previous_val =>
        if 0 < previous_val then
          some ⟨year, (current_val - previous_val) / previous_val * 100⟩
        else none
      | _, _ => none
    else none)

/-- `_analyze_revenue_trends()`: per tracked source present in the table
(first row with that name), its growth rates and their arithmetic mean
(0 when none). -/
def analyze_revenue_trends (t : RevenueTable) : List (String × SourceTrend) :=
  major_sources.filterMap (fun source =>
    (t.rows.find? (fun r => r.source == source)).map (fun r =>
      let g := growth_rates_for t r
      (source, (⟨g, if g.isEmpty then 0 else (g.map (·.growth_rate)).sum / g.length⟩ :
        SourceTrend))))

/-- Modelled from the spec (refinement comparison only): growth-rate pairs
restricted to consecutive years where BOTH values are defined and strictly
positive, as the spec sentence describes. -/
def growth_rates_spec (t : RevenueTable) (r : RevenueRow) : List GrowthEntry :=
  (List.range' 2017 9).filterMap (fun year =>
    if year ∈ t.cols ∧ year - 1 ∈ t.cols then
      match r.cell year, r.cell (year - 1) with
      | some current_val, some previous_val =>
        if 0 < current_val ∧ 0 < previous_val then
          some ⟨year, (current_val - previous_val) / previous_val * 100⟩
        else none
      | _, _ => none
    else none)

/-- One entry of `self.conversation_history`. -/
structure Msg where
  role : String
  content : String
deriving DecidableEq, Repr

/-- The effect of one `get_response` call on `self.conversation_history`.
The user message is appended before the external completion call; if that
call raises, the `except` returns the apology string with no trimming; on
success the assistant reply (`response.text` or the fallback apology, here
paraphrased without affecting any claim) is appended and the list is cut to
its last 20 entries when longer. -/
def get_response_history (history : List Msg) (user_query : String)
    (completion : Except String (Option String)) : List Msg :=
  let h1 := history ++ [⟨"user", user_query⟩]
  match completion with
  | .error _ => h1
  | .ok resp =>
    let ai_response := resp.getD "I apologize, I could not generate a response."
    let h2 := h1 ++ [⟨"assistant", ai_response⟩]
    if 20 < h2.length then h2.drop (h2.length - 20) else h2

/-- C10: when a budget summary record has non-positive nominal GDP,
`_calculate_fiscal_health` returns 0 for both GDP ratios instead of
dividing by zero. -/
theorem c10_fiscal_health_gdp_guard (summary : List BudgetRecord) (b : BudgetRecord)
    (h : b.gdp_nominal_in_crores ≤ 0) :
    (calculate_fiscal_health summary b).expenditure_to_gdp = 0 ∧
    (calculate_fiscal_health summary b).revenue_to_gdp = 0 := by
  constructor <;> simp [calculate_fiscal_health, not_lt.mpr h]

/-- Witness for C10 at a concrete zero-GDP record. -/
theorem c10_witness :
    (calculate_fiscal_health [] ⟨2025, 10, 12, 0, 2, 5⟩).expenditure_to_gdp = 0 ∧
    (calculate_fiscal_health [] ⟨2025, 10, 12, 0, 2, 5⟩).revenue_to_gdp = 0 :=
  c10_fiscal_health_gdp_guard [] ⟨2025, 10, 12, 0, 2, 5⟩ (by norm_num)

/-- C5: the deficit-trend comparison is anti-symmetric: if the pair
(current, previous) classifies as "Improving", swapping the two ratios
classifies as "Deteriorating", never "Improving" again. -/
theorem c5_deficit_trend_antisymm (a b : ℚ) (h : deficit_compare a b = "Improving") :
    deficit_compare b a = "Deteriorating" ∧ deficit_compare b a ≠ "Improving" := by
  have hab : a < b := by
    rcases lt_trichotomy a b with h1 | h1 | h1
    · exact h1
    · rw [deficit_compare, if_neg (by simp [h1]), if_neg (by simp [h1])] at h
      exact absurd h (by decide)
    · rw [deficit_compare, if_neg (asymm h1), if_pos h1] at h
      exact absurd h (by decide)
  rw [deficit_compare, if_neg (asymm hab), if_pos hab]
  exact ⟨rfl, by decide⟩

/-- Witness for C5 at the concrete ratios 1 and 2. -/
theorem c5_witness : deficit_compare 2 1 = "Deteriorating" ∧ deficit_compare 2 1 ≠ "Improving" :=
  c5_deficit_trend_antisymm 1 2 (by rw [deficit_compare, if_pos (by norm_num)])

/-- C4: for a year present in the summary table, the deficit trend is
"Unknown" when the current-year lookup fails, "No trend data" when no
record for the previous year exists, and otherwise compares the two
ratios: strictly lower is "Improving", strictly higher "Deteriorating",
equal "Stable". -/
theorem c4_deficit_trend_cases (summary : List BudgetRecord) (y : Nat) :
    (summary.find? (fun r => r.year == y) = none →
      get_deficit_trend summary y = "Unknown") ∧
    (∀ r, summary.find? (fun r => r.year == y) = some r →
      ((summary.find? (fun p => p.year == y - 1) = none →
          get_deficit_trend summary y = "No trend data") ∧
       (∀ p, summary.find? (fun p => p.year == y - 1) = some p →
          get_deficit_trend summary y =
            (if r.fiscal_deficit_as_gdp_pct < p.fiscal_deficit_as_gdp_pct then "Improving"
             else if p.fiscal_deficit_as_gdp_pct < r.fiscal_deficit_as_gdp_pct then "Deteriorating"
             else "Stable")))) := by
  refine ⟨fun h => by simp [get_deficit_trend, h], fun r hr => ⟨fun h => ?_, fun p hp => ?_⟩⟩
  · simp [get_deficit_trend, hr, h]
  · simp [get_deficit_trend, deficit_compare, hr, hp]

/-- Witness for C4: the spec example, 2024 ratio 5.0 and 2025 ratio 4.5,
classifies 2025 as "Improving". -/
theorem c4_witness :
    get_deficit_trend [⟨2024, 0, 0, 0, 0, 5⟩, ⟨2025, 0, 0, 0, 0, 9/2⟩] 2025 = "Improving" := by
  have h := ((c4_deficit_trend_cases [⟨2024, 0, 0, 0, 0, 5⟩, ⟨2025, 0, 0, 0, 0, 9/2⟩] 2025).2
    ⟨2025, 0, 0, 0, 0, 9/2⟩ (by rfl)).2 ⟨2024, 0, 0, 0, 0, 5⟩ (by rfl)
  rw [h, if_pos (by norm_num)]

/-- C3: when a year has no budget summary record, `get_year_overview`
returns exactly the error value, which carries only the message — no
revenue breakdown, ministries, schemes, speech or fiscal-health data can
accompany it. -/
theorem c3_year_overview_not_found (s : DataStore) (y : Nat)
    (h : s.budget_summary.find? (fun r => r.year == y) = none) :
    get_year_overview s y = .error ("No data available for year " ++ toString y) := by
  simp [get_year_overview, h]

/-- Witness for C3 at a concrete store whose summary only covers 2016,
queried for 1999. -/
theorem c3_witness :
    get_year_overview ⟨⟨[], []⟩, ⟨[], []⟩, [⟨2016, 10, 12, 100, 2, 5⟩], [], []⟩ 1999 =
      .error ("No data available for year " ++ toString 1999) :=
  c3_year_overview_not_found ⟨⟨[], []⟩, ⟨[], []⟩, [⟨2016, 10, 12, 100, 2, 5⟩], [], []⟩ 1999
    (by decide)

/-- C1 counterexample: forcing the fiscal-analysis sub-computation to fail
while every other sub-computation succeeds makes `get_insights_data` return
the single error dictionary; in particular the revenue-trend output is
suppressed, refuting the claimed sub-report isolation. -/
theorem c1_counterexample :
    get_insights_data (.ok 1) (.ok 2) (.error "boom") (.ok 4) (.ok 5) =
      (.error "Error generating insights: boom" : Except String (Nat × Nat × Nat × Nat × Nat)) ∧
    (get_insights_data (.ok 1) (.ok 2) (.error "boom") (.ok 4) (.ok 5) :
      Except String (Nat × Nat × Nat × Nat × Nat)).isOk = false :=
  ⟨rfl, rfl⟩

/-- C1 amended: `get_insights_data` returns the sub-reports if and only if
every sub-computation succeeds; the first failing sub-computation makes the
whole call return a single error dictionary with no sub-reports. -/
theorem c1_insights_all_or_nothing {A B C D E : Type} (rt : Except String A)
    (ep : Except String B) (fa : Except String C) (mp : Except String D)
    (kf : Except String E) :
    (∃ i, get_insights_data rt ep fa mp kf = .ok i) ↔
      ((∃ a, rt = .ok a) ∧ (∃ b, ep = .ok b) ∧ (∃ c, fa = .ok c) ∧
       (∃ d, mp = .ok d) ∧ (∃ e, kf = .ok e)) := by
  cases rt <;> cases ep <;> cases fa <;> cases mp <;> cases kf <;>
    simp [get_insights_data]

/-- Witness for C1 amended: all five sub-computations succeed on a concrete
input and the report is returned. -/
theorem c1_witness :
    (get_insights_data (Except.ok (1 : Nat)) (Except.ok (2 : Nat)) (Except.ok (3 : Nat))
      (Except.ok (4 : Nat)) (Except.ok (5 : Nat))).isOk = true := by
  obtain ⟨i, hi⟩ := (c1_insights_all_or_nothing (Except.ok (1 : Nat)) (Except.ok (2 : Nat))
    (Except.ok (3 : Nat)) (Except.ok (4 : Nat)) (Except.ok (5 : Nat))).mpr
    ⟨⟨1, rfl⟩, ⟨2, rfl⟩, ⟨3, rfl⟩, ⟨4, rfl⟩, ⟨5, rfl⟩⟩
  rw [hi]
  rfl

/-- C9 counterexample: starting from a history of exactly 20 entries, a
call whose external completion fails leaves 21 entries — the cap is not
applied on the failure path. -/
theorem c9_counterexample :
    (get_response_history (List.replicate 20 ⟨"user", "x"⟩) "q" (.error "api failure")).length = 21 ∧
    ¬ (get_response_history (List.replicate 20 ⟨"user", "x"⟩) "q" (.error "api failure")).length ≤ 20 := by
  constructor <;> simp [get_response_history]

/-- C9 amended: the 20-entry cap holds after every successful call, but a
call whose external completion fails appends the user message without
trimming, so the history grows to its previous length plus one. -/
theorem c9_history_cap (history : List Msg) (q : String) :
    (∀ resp, (get_response_history history q (.ok resp)).length ≤ 20) ∧
    (∀ err, (get_response_history history q (.error err)).length = history.length + 1) := by
  constructor
  · intro resp
    simp only [get_response_history]
    split
    · simp; omega
    · next h => simp at h ⊢; omega
  · intro err
    simp [get_response_history]

/-- Witness for C9 amended at a concrete overlong history and successful
completion. -/
theorem c9_witness :
    (get_response_history (List.replicate 25 ⟨"user", "x"⟩) "q" (.ok (some "fine"))).length ≤ 20 :=
  (c9_history_cap (List.replicate 25 ⟨"user", "x"⟩) "q").1 (some "fine")

/-- A small concrete store used to exercise `get_comparison_data`: the
summary covers only 2016. -/
def store6 : DataStore :=
  ⟨⟨[2016], [⟨"Income Tax", fun y => if y = 2016 then some 100 else none⟩]⟩,
   ⟨[2016], [⟨"Ministry of Defence", 1, "N/A", fun y => if y = 2016 then some 50 else none⟩]⟩,
   [⟨2016, 10, 12, 100, 2, 5⟩], [], []⟩

/-- C6 counterexample: requesting only the year 1999, which has no summary
record, does not fail — `get_comparison_data` returns an ok comparison with
an empty budget-summary list instead of a NotFoundError. -/
theorem c6_counterexample :
    store6.budget_summary.find? (fun r => r.year == 1999) = none ∧
    get_comparison_data store6 [1999] = .ok ⟨[1999], [], [], [], []⟩ := by
  constructor <;> rfl

/-- C6 amended: `get_comparison_data` never fails for missing years; it
always returns an ok comparison whose budget-summary list holds exactly the
records of the requested years that are present (empty when none are), and
every requested year with a record contributes its record. -/
theorem c6_comparison_never_fails (s : DataStore) (years : List Nat) :
    ∃ r, get_comparison_data s years = .ok r ∧
      r.budget_summary =
        years.filterMap (fun y => s.budget_summary.find? (fun b => b.year == y)) ∧
      ∀ y b, y ∈ years → s.budget_summary.find? (fun x => x.year == y) = some b →
        b ∈ r.budget_summary := by
  refine ⟨_, rfl, rfl, fun y b hy hb => ?_⟩
  exact List.mem_filterMap.mpr ⟨y, hy, hb⟩

/-- Witness for C6 amended: with partial coverage (1999 absent, 2016
present) the call succeeds and returns the 2016 record. -/
theorem c6_witness :
    (get_comparison_data store6 [1999, 2016]).toOption.elim False
      (fun r => (⟨2016, 10, 12, 100, 2, 5⟩ : BudgetRecord) ∈ r.budget_summary) := by
  obtain ⟨r, hr, _, hmem⟩ := c6_comparison_never_fails store6 [1999, 2016]
  rw [hr]
  exact hmem 2016 ⟨2016, 10, 12, 100, 2, 5⟩ (by decide) (by rfl)

/-- The substring scanner agrees with list infix containment. -/
lemma contains_sub_iff (n : List Char) : ∀ h : List Char, contains_sub n h = true ↔ n <:+: h := by
  intro h
  induction h with
  | nil => simp [contains_sub, List.infix_nil, List.isEmpty_iff]
  | cons c t ih =>
    rw [contains_sub, Bool.or_eq_true, ih, List.isPrefixOf_iff_prefix, List.infix_cons_iff]

/-- `substr_ci` is exactly case-insensitive substring containment. -/
lemma substr_ci_iff (pat hay : String) :
    substr_ci pat hay = true ↔
      pat.toList.map Char.toLower <:+: hay.toList.map Char.toLower := by
  rw [substr_ci, contains_sub_iff]

/-- An expenditure table whose only ministry name contains parentheses,
with a defined 2025 amount. -/
def store7c : DataStore :=
  ⟨⟨[], []⟩,
   ⟨[2025], [⟨"Defence (Civil)", 1, "N/A", fun y => if y = 2025 then some 50 else none⟩]⟩,
   [], [], []⟩

/-- C7 counterexample: the pattern "defence (civil)" IS a case-insensitive
substring of the table name "Defence (Civil)", whose 2025 amount is
defined, so the claimed universal substring semantics requires a successful
match; but the code's `str.contains` keeps its `regex=True` default, the
parentheses in the pattern are grouping operators, the compiled pattern
matches "defence civil" and the search fails on "Defence (Civil)" — so
`get_ministry_details` returns the NotFound error instead. -/
theorem c7_counterexample :
    substr_ci "defence (civil)" "Defence (Civil)" = true ∧
    regex_contains_paren "defence (civil)" "Defence (Civil)" = false ∧
    get_ministry_details regex_contains_paren store7c 2025 "defence (civil)" =
      .error ("No data found for " ++ "defence (civil)" ++ " in " ++ toString 2025) :=
  ⟨by decide, by decide, by rfl⟩

/-- C7 amended: `get_ministry_details` matches the pattern with the pandas
`str.contains(…, case=False)` element test `m`, which interprets the
pattern as a case-insensitive REGEX. For every such matcher it errors
exactly when no row both matches and has a defined amount for the year
(zero matches, or a sole name-match with undefined amount), and otherwise
returns the first such row in table order with its name and raw amount
cell; and whenever the regex search coincides with literal containment at
the pattern — in particular for patterns free of regex metacharacters —
matching is exactly case-insensitive substring containment, as the
original claim states. -/
theorem c7_ministry_details (m : String → String → Bool) (s : DataStore) (y : Nat)
    (p : String) (hcol : y ∈ s.expenditure_data.cols) :
    ((get_ministry_details m s y p =
        .error ("No data found for " ++ p ++ " in " ++ toString y) ↔
      ∀ r ∈ s.expenditure_data.rows,
        ¬(m p r.name = true ∧ (r.cell y).isSome = true)) ∧
     (∀ r, s.expenditure_data.rows.find?
        (fun r => m p r.name && (r.cell y).isSome) = some r →
      ∃ d, get_ministry_details m s y p = .ok d ∧ d.ministry_name = r.name ∧
        d.current_allocation = r.cell y ∧ d.rank = r.rank)) ∧
    ((∀ name, m p name = substr_ci p name) →
      ∀ name, m p name = true ↔
        p.toList.map Char.toLower <:+: name.toList.map Char.toLower) := by
  refine ⟨⟨?_, fun r hr => ?_⟩, fun hm name => by rw [hm name]; exact substr_ci_iff p name⟩
  · cases hfind : s.expenditure_data.rows.find?
        (fun r => m p r.name && (r.cell y).isSome) with
    | none =>
      rw [List.find?_eq_none] at hfind
      simp only [get_ministry_details, if_pos hcol, List.find?_eq_none.mpr hfind]
      constructor
      · intro _ r hrm hboth
        exact absurd (by rw [hboth.1, hboth.2]; rfl) (hfind r hrm)
      · intro _; trivial
    | some r =>
      have hmem := List.mem_of_find?_eq_some hfind
      have hpred := List.find?_some hfind
      rw [Bool.and_eq_true] at hpred
      simp only [get_ministry_details, if_pos hcol, hfind]
      constructor
      · intro h; exact absurd h (by simp)
      · intro h; exact absurd hpred (h r hmem ∘ fun hp => ⟨hp.1, hp.2⟩)
  · simp only [get_ministry_details, if_pos hcol, hr]
    exact ⟨_, rfl, rfl, rfl, rfl⟩

/-- A concrete store for the ministry-detail witness. -/
def store7 : DataStore :=
  ⟨⟨[], []⟩,
   ⟨[2025], [⟨"Ministry of Defence", 1, "N/A", fun y => if y = 2025 then some 50 else none⟩]⟩,
   [], [], []⟩

/-- Witness for C7: for the metacharacter-free pattern "defence" the
matcher is literal containment, and the lower-case pattern resolves,
despite the capitalised table name, to the first matching ministry with
its defined 2025 amount. -/
theorem c7_witness :
    (get_ministry_details substr_ci store7 2025 "defence").toOption.elim False
      (fun d => d.ministry_name = "Ministry of Defence" ∧
        d.current_allocation = some 50) := by
  obtain ⟨d, h1, h2, h3, _⟩ := (c7_ministry_details substr_ci store7 2025 "defence"
    (by decide)).1.2
    ⟨"Ministry of Defence", 1, "N/A", fun y => if y = 2025 then some 50 else none⟩
    (List.find?_cons_of_pos _ (by decide))
  rw [h1]
  exact ⟨h2, h3.trans (by rfl)⟩

/-- Membership in the growth-rate list of `_analyze_revenue_trends`: an
entry for year `y` appears exactly when `y` is in 2017..2025, both year
columns exist, both cells are defined, and the previous value is strictly
positive. -/
lemma mem_growth_rates_for (t : RevenueTable) (r : RevenueRow) (y : Nat) (g : ℚ) :
    (⟨y, g⟩ : GrowthEntry) ∈ growth_rates_for t r ↔
      (2017 ≤ y ∧ y < 2026 ∧ y ∈ t.cols ∧ y - 1 ∈ t.cols ∧
       ∃ c p, r.cell y = some c ∧ r.cell (y - 1) = some p ∧ 0 < p ∧
         g = (c - p) / p * 100) := by
  rw [growth_rates_for, List.mem_filterMap]
  constructor
  · rintro ⟨y', hy', hf⟩
    rw [List.mem_range'_1] at hy'
    split at hf
    · next hcols =>
      split at hf
      · next c p hc hp =>
        split at hf
        · next hpos =>
          obtain ⟨h1, h2⟩ := GrowthEntry.mk.injEq .. ▸ (Option.some.injEq .. ▸ hf)
          subst h1
          exact ⟨hy'.1, by omega, hcols.1, hcols.2, c, p, hc, hp, hpos, h2.symm⟩
        · exact absurd hf (by simp)
      · exact absurd hf (by simp)
    · exact absurd hf (by simp)
  · rintro ⟨h1, h2, hc1, hc2, c, p, hcy, hpy, hpos, hg⟩
    refine ⟨y, List.mem_range'_1.mpr ⟨h1, by omega⟩, ?_⟩
    rw [if_pos ⟨hc1, hc2⟩, hcy, hpy]
    show (if 0 < p then some (⟨y, (c - p) / p * 100⟩ : GrowthEntry) else none) = some ⟨y, g⟩
    rw [if_pos hpos, hg]

/-- C8 amended: for each tracked major source present in the revenue table,
the trend entry's growth rates occur exactly for the consecutive year pairs
where both values are defined and the PREVIOUS value is strictly positive
(the current value is not required to be positive), with rate
(cur - prev) / prev * 100; the average is the arithmetic mean of those
rates, 0 when none are computable. -/
theorem c8_growth_rates (t : RevenueTable) (source : String) (r : RevenueRow)
    (hs : source ∈ major_sources)
    (hr : t.rows.find? (fun x => x.source == source) = some r) :
    ∃ st, (source, st) ∈ analyze_revenue_trends t ∧
      (∀ y g, (⟨y, g⟩ : GrowthEntry) ∈ st.growth_rates ↔
        (2017 ≤ y ∧ y < 2026 ∧ y ∈ t.cols ∧ y - 1 ∈ t.cols ∧
         ∃ c p, r.cell y = some c ∧ r.cell (y - 1) = some p ∧ 0 < p ∧
           g = (c - p) / p * 100)) ∧
      st.avg_growth = (if st.growth_rates.isEmpty then 0
        else (st.growth_rates.map (·.growth_rate)).sum / st.growth_rates.length) := by
  refine ⟨⟨growth_rates_for t r,
    if (growth_rates_for t r).isEmpty then 0
    else ((growth_rates_for t r).map (·.growth_rate)).sum / (growth_rates_for t r).length⟩,
    ?_, fun y g => mem_growth_rates_for t r y g, rfl⟩
  refine List.mem_filterMap.mpr ⟨source, hs, ?_⟩
  rw [hr]
  rfl

/-- A revenue table where Income Tax is 100 in 2016 and 0 in 2017. -/
def t8 : RevenueTable :=
  ⟨[2016, 2017],
   [⟨"Income Tax", fun y => if y = 2016 then some 100 else if y = 2017 then some 0 else none⟩]⟩

/-- C8 counterexample: with Income Tax at 100 in 2016 and 0 in 2017, the
code reports a growth-rate entry for 2017 (rate -100) even though the
current value is not strictly positive; the spec-described pair set
(both values positive) is empty there. -/
theorem c8_counterexample :
    analyze_revenue_trends t8 =
      [("Income Tax", ⟨[⟨2017, -100⟩], -100⟩)] ∧
    t8.rows.map (fun r => growth_rates_spec t8 r) = [[]] ∧
    t8.rows.map (fun r => r.cell 2017) = [some 0] := by
  refine ⟨?_, ?_, by simp [t8]⟩
  · norm_num [analyze_revenue_trends, major_sources, growth_rates_for, t8, List.range',
      List.filterMap_cons]
    simp
  · norm_num [growth_rates_spec, t8, List.range', List.filterMap_cons]

/-- A revenue table where Corporation Tax grows from 100 to 110. -/
def t8w : RevenueTable :=
  ⟨[2016, 2017],
   [⟨"Corporation Tax",
     fun y => if y = 2016 then some 100 else if y = 2017 then some 110 else none⟩]⟩

/-- Witness for C8 amended: Corporation Tax at 100 then 110 yields a
2017 growth-rate entry of 10 percent. -/
theorem c8_witness :
    (analyze_revenue_trends t8w).any (fun q =>
      q.1 == "Corporation Tax" &&
      decide ((⟨2017, 10⟩ : GrowthEntry) ∈ q.2.growth_rates)) = true := by
  obtain ⟨st, hmem, hiff, _⟩ := c8_growth_rates t8w "Corporation Tax"
    ⟨"Corporation Tax",
      fun y => if y = 2016 then some 100 else if y = 2017 then some 110 else none⟩
    (by simp [major_sources]) (List.find?_cons_of_pos _ (by simp))
  refine List.any_eq_true.mpr ⟨("Corporation Tax", st), hmem, ?_⟩
  rw [Bool.and_eq_true]
  refine ⟨by simp, decide_eq_true ((hiff 2017 10).mpr ?_)⟩
  exact ⟨by norm_num, by norm_num, by simp [t8w], by simp [t8w], 110, 100, rfl, rfl,
    by norm_num, by norm_num⟩

/-- Membership in the pre-percentage revenue list. -/
lemma mem_revenue_list {t : RevenueTable} {y : Nat} {e : RevEntry} :
    e ∈ revenue_list t y ↔
      ∃ r ∈ t.rows, ∃ v, r.cell y = some v ∧ 0 < v ∧ e = ⟨r.source, v, 0⟩ := by
  rw [revenue_list, List.mem_filterMap]
  constructor
  · rintro ⟨r, hr, hf⟩
    split at hf
    · next v hv =>
      split at hf
      · next hpos =>
        exact ⟨r, hr, v, hv, hpos, (Option.some.inj hf).symm⟩
      · exact absurd hf (by simp)
    · exact absurd hf (by simp)
  · rintro ⟨r, hr, v, hv, hpos, he⟩
    refine ⟨r, hr, ?_⟩
    rw [hv]
    show (if 0 < v then some (⟨r.source, v, 0⟩ : RevEntry) else none) = some e
    rw [if_pos hpos, he]

/-- Every included amount is strictly positive. -/
lemma revenue_list_amount_pos {t : RevenueTable} {y : Nat} :
    ∀ e ∈ revenue_list t y, 0 < e.amount := by
  intro e he
  obtain ⟨r, _, v, _, hpos, he⟩ := mem_revenue_list.mp he
  rw [he]
  exact hpos

/-- Scaling distributes over the sum of amounts. -/
lemma sum_map_scale (l : List RevEntry) (c : ℚ) :
    (l.map (fun e => e.amount * c)).sum = (l.map (·.amount)).sum * c := by
  induction l with
  | nil => simp
  | cons a l ih => simp [ih, add_mul]

/-- C2: every entry of the revenue breakdown has a strictly positive amount
and a percentage equal to its amount divided by the sum of all included
amounts times 100; the percentages sum exactly to 100 when at least one
source has a defined positive amount for the year, and to 0 when none do. -/
theorem c2_revenue_breakdown (t : RevenueTable) (y : Nat) :
    (∀ e ∈ get_revenue_for_year t y,
       0 < e.amount ∧
       e.percentage = e.amount / ((get_revenue_for_year t y).map (·.amount)).sum * 100) ∧
    ((y ∈ t.cols ∧ ∃ r ∈ t.rows, ∃ v, r.cell y = some v ∧ 0 < v) →
       ((get_revenue_for_year t y).map (·.percentage)).sum = 100) ∧
    (¬(y ∈ t.cols ∧ ∃ r ∈ t.rows, ∃ v, r.cell y = some v ∧ 0 < v) →
       ((get_revenue_for_year t y).map (·.percentage)).sum = 0) := by
  by_cases hcol : y ∈ t.cols
  case neg =>
    refine ⟨?_, ?_, ?_⟩ <;> simp [get_revenue_for_year, hcol]
  case pos =>
    have hb : get_revenue_for_year t y =
        ((revenue_list t y).map (fun e =>
          (⟨e.source, e.amount,
            if 0 < ((revenue_list t y).map (·.amount)).sum then
              e.amount / ((revenue_list t y).map (·.amount)).sum * 100
            else 0⟩ : RevEntry))).mergeSort (fun a b => b.amount ≤ a.amount) := by
      simp only [get_revenue_for_year, if_pos hcol]
    have hperm := List.mergeSort_perm
      ((revenue_list t y).map (fun e =>
        (⟨e.source, e.amount,
          if 0 < ((revenue_list t y).map (·.amount)).sum then
            e.amount / ((revenue_list t y).map (·.amount)).sum * 100
          else 0⟩ : RevEntry))) (fun a b => b.amount ≤ a.amount)
    rw [hb]
    have hamounts : ∀ f : RevEntry → ℚ,
        (((revenue_list t y).map (fun e =>
          (⟨e.source, e.amount,
            if 0 < ((revenue_list t y).map (·.amount)).sum then
              e.amount / ((revenue_list t y).map (·.amount)).sum * 100
            else 0⟩ : RevEntry))).map f).sum =
        ((revenue_list t y).map (fun e => f
          (⟨e.source, e.amount,
            if 0 < ((revenue_list t y).map (·.amount)).sum then
              e.amount / ((revenue_list t y).map (·.amount)).sum * 100
            else 0⟩ : RevEntry))).sum := by
      intro f
      rw [List.map_map]
      rfl
    have hsum_amt :
        ((((revenue_list t y).map (fun e =>
          (⟨e.source, e.amount,
            if 0 < ((revenue_list t y).map (·.amount)).sum then
              e.amount / ((revenue_list t y).map (·.amount)).sum * 100
            else 0⟩ : RevEntry))).mergeSort (fun a b => b.amount ≤ a.amount)).map
            (·.amount)).sum = ((revenue_list t y).map (·.amount)).sum := by
      rw [(hperm.map (·.amount)).sum_eq, hamounts (·.amount)]
    have hpos_of_ne : revenue_list t y ≠ [] →
        0 < ((revenue_list t y).map (·.amount)).sum := by
      intro hne
      refine List.sum_pos _ (fun x hx => ?_) (by simpa using hne)
      obtain ⟨e, he, hxe⟩ := List.mem_map.mp hx
      exact hxe ▸ revenue_list_amount_pos e he
    refine ⟨?_, ?_, ?_⟩
    · intro e he
      rw [hperm.mem_iff, List.mem_map] at he
      obtain ⟨e1, he1, hee⟩ := he
      have hne : revenue_list t y ≠ [] := fun h0 => by
        rw [h0] at he1; exact absurd he1 (List.not_mem_nil e1)
      have hT := hpos_of_ne hne
      rw [hsum_amt, ← hee]
      exact ⟨revenue_list_amount_pos e1 he1, by rw [if_pos hT]⟩
    · rintro ⟨_, r, hr, v, hv, hvpos⟩
      have hne : revenue_list t y ≠ [] := fun h0 => by
        have hm : (⟨r.source, v, 0⟩ : RevEntry) ∈ revenue_list t y :=
          mem_revenue_list.mpr ⟨r, hr, v, hv, hvpos, rfl⟩
        rw [h0] at hm
        exact absurd hm (List.not_mem_nil _)
      have hT := hpos_of_ne hne
      rw [(hperm.map (·.percentage)).sum_eq, hamounts (·.percentage)]
      have hpt : ((revenue_list t y).map (fun e =>
          if 0 < ((revenue_list t y).map (·.amount)).sum then
            e.amount / ((revenue_list t y).map (·.amount)).sum * 100
          else 0)).sum =
          ((revenue_list t y).map (fun e =>
            e.amount * (100 / ((revenue_list t y).map (·.amount)).sum))).sum := by
        refine congrArg List.sum (List.map_congr_left fun e _ => ?_)
        rw [if_pos hT]
        ring
      rw [hpt, sum_map_scale, mul_comm, div_mul_cancel₀ _ (ne_of_gt hT)]
    · intro hnone
      have hL : revenue_list t y = [] := by
        by_contra hne
        obtain ⟨e, he⟩ := List.exists_mem_of_ne_nil _ hne
        obtain ⟨r, hr, v, hv, hvpos, _⟩ := mem_revenue_list.mp he
        exact hnone ⟨hcol, r, hr, v, hv, hvpos⟩
      rw [(hperm.map (·.percentage)).sum_eq, hamounts (·.percentage), hL]
      rfl

/-- A revenue table matching the spec example: sources A at 600 and B at
400 for 2025. -/
def t2 : RevenueTable :=
  ⟨[2025],
   [⟨"A", fun y => if y = 2025 then some 600 else none⟩,
    ⟨"B", fun y => if y = 2025 then some 400 else none⟩]⟩

/-- Witness for C2: with A at 600 and B at 400 in 2025 the percentages sum
to exactly 100. -/
theorem c2_witness :
    ((get_revenue_for_year t2 2025).map (·.percentage)).sum = 100 :=
  (c2_revenue_breakdown t2 2025).2.1
    ⟨by simp [t2], ⟨"A", fun y => if y = 2025 then some 600 else none⟩,
      by simp [t2], 600, rfl, by norm_num⟩

end GovFinViz
